import Mathlib

/-!
A shallow embedding of the two controllers of the aiven-operator sources
(the PG handler and the Kafka service adapter), together with theorems
checking the specification's claims about them.

Conventions of the embedding:
- Go's `(value, error)` return pairs become Lean pairs whose second
  component is `Option GoErr` (`none` = nil error).
- Go pointers that may be nil become `Option`.
- Go `map[string]string` values become association lists
  (`List (String × String)`); Go's indexing, which yields the zero value
  for a missing key, becomes `mapGet`, which yields the empty string.
- The remote Aiven client is a record of response functions; every
  operation additionally returns the list of remote calls it issued, so
  that "issues no remote call" is expressible.
- Only the fields that the provided sources read are modelled.
-/

/-- A Go error value as the aiven client exposes it: `notFound` is what
the predicate `aiven.IsNotFound` reports for it. -/
structure GoErr where
  notFound : Bool
  msg : String
deriving DecidableEq, Repr

/-- Predicate `aiven.IsNotFound` applied to a possibly-nil error: nil is not NotFound. -/
def isNotFound : Option GoErr → Bool
  | some e => e.notFound
  | none => false

/-- An Aiven service maintenance window. -/
structure MaintenanceWindow where
  dayOfWeek : String
  timeOfDay : String
deriving DecidableEq, Repr

/-- One entry of an Aiven service's user list. -/
structure ServiceUser where
  username : String
  password : String
deriving DecidableEq, Repr

/-- Kind-specific connection metadata of an Aiven service. -/
structure ConnectionInfo where
  kafkaAccessCert : String
  kafkaAccessKey : String
deriving DecidableEq, Repr

/-- The remote resource snapshot (`aiven.Service`). -/
structure Service where
  state : String
  plan : String
  cloudName : String
  projectVPCID : Option String
  maintenanceWindow : MaintenanceWindow
  uri : String
  uriParams : List (String × String)
  users : List ServiceUser
  connectionInfo : ConnectionInfo
deriving DecidableEq, Repr

/-- Go map indexing on a string map: the zero value for a missing key. -/
def mapGet (m : List (String × String)) (k : String) : String :=
  match m.find? (fun kv => kv.1 == k) with
  | some kv => kv.2
  | none => ""

/-- Request type `aiven.CreateServiceRequest`, restricted to the fields the sources set. -/
structure CreateServiceRequest where
  cloud : String
  maintenanceWindow : Option MaintenanceWindow
  plan : String
  projectVPCID : Option String
  serviceName : String
  serviceType : String
  userConfig : String
deriving DecidableEq, Repr

/-- Request type `aiven.UpdateServiceRequest`, restricted to the fields the sources set. -/
structure UpdateServiceRequest where
  cloud : String
  maintenanceWindow : Option MaintenanceWindow
  plan : String
  projectVPCID : Option String
  userConfig : String
  powered : Bool
deriving DecidableEq, Repr

/-- A remote call issued against the Aiven client. -/
inductive RemoteCall where
  | getService (project name : String)
  | createService (project : String) (req : CreateServiceRequest)
  | updateService (project name : String) (req : UpdateServiceRequest)
  | deleteService (project name : String)
  | getCA (project : String)
deriving DecidableEq, Repr

/-- The remote control-plane client: a record of response functions.
A `(Option Service × Option GoErr)` response mirrors Go's `(*Service, error)`. -/
structure Client where
  servicesGet : String → String → Option Service × Option GoErr
  servicesCreate : String → CreateServiceRequest → Option Service × Option GoErr
  servicesUpdate : String → String → UpdateServiceRequest → Option Service × Option GoErr
  servicesDelete : String → String → Option GoErr
  caGet : String → String × Option GoErr

/-- A Kubernetes secret, restricted to the fields the sources set. -/
structure Secret where
  name : String
  ns : String
  labels : List (String × String)
  stringData : List (String × String)
deriving DecidableEq, Repr

/-- The PG descriptor's Spec. The kind-specific user configuration blob is
abstract (a string), since the sources only pass it through. -/
structure PGSpec where
  project : String
  cloudName : String
  plan : String
  maintenanceWindowDow : String
  maintenanceWindowTime : String
  projectVPCID : String
  pgUserConfig : String
  connInfoSecretTargetName : String
deriving DecidableEq, Repr

/-- The PG descriptor's Status. -/
structure PGStatus where
  state : String
  projectVPCID : String
  plan : String
  maintenanceWindowTime : String
  maintenanceWindowDow : String
  cloudName : String
deriving DecidableEq, Repr

/-- The PG descriptor (`v1alpha1.PG`). -/
structure PG where
  name : String
  ns : String
  spec : PGSpec
  status : PGStatus
deriving DecidableEq, Repr

/-- Shared fields of all service descriptors (`v1alpha1.ServiceCommonSpec`). -/
structure ServiceCommonSpec where
  project : String
deriving DecidableEq, Repr

/-- The Kafka descriptor's Spec. -/
structure KafkaSpec where
  serviceCommonSpec : ServiceCommonSpec
  connInfoSecretTargetName : String
  diskSpace : String
  userConfig : String
deriving DecidableEq, Repr

/-- The Kafka descriptor (`v1alpha1.Kafka`). -/
structure Kafka where
  name : String
  ns : String
  spec : KafkaSpec
deriving DecidableEq, Repr

/-- A `client.Object`: either a descriptor of one of the modelled kinds or
some other object. -/
inductive KObject where
  | pg (p : PG)
  | kafka (k : Kafka)
  | other (name : String)
deriving DecidableEq, Repr

/-- Whether a `client.Object` is concretely a PG descriptor. -/
def KObject.isPGKind : KObject → Bool
  | .pg _ => true
  | _ => false

/-- Whether a `client.Object` is concretely a Kafka descriptor. -/
def KObject.isKafkaKind : KObject → Bool
  | .kafka _ => true
  | _ => false

/-- A logr.Logger; the sources only emit messages through it, which has no
observable effect in the model. -/
abbrev Logger := Unit

/-- The error value `PGHandler.convert` produces for a non-PG object. -/
def pgConvErr : GoErr := { notFound := false, msg := "cannot convert object to PG" }

/-- Method `PGHandler.convert`: the type assertion `i.(*v1alpha1.PG)`. -/
def PGHandler.convert : KObject → Except GoErr PG
  | .pg p => .ok p
  | _ => .error pgConvErr

/-- Modelled from the spec: the helper `getMaintenanceWindow` is defined in
the generic controller file, which is not among the provided sources. Per
the spec, the maintenance window passed to create/update requests is the
descriptor's day-of-week plus time-of-day pair. -/
def getMaintenanceWindow (dow time : String) : Option MaintenanceWindow :=
  if dow != "" || time != "" then some { dayOfWeek := dow, timeOfDay := time } else none

/-- Modelled from the spec: `UserConfigurationToAPI` is pure data
translation of the kind-specific user-configuration blob, declared out of
scope by the spec; modelled as the identity on the abstract blob. -/
def UserConfigurationToAPI (cfg : String) : String := cfg

/-- The `aiven.CreateServiceRequest` literal built inside `PGHandler.create`. -/
def PGHandler.createRequestOf (pg : PG) : CreateServiceRequest :=
  { cloud := pg.spec.cloudName
    maintenanceWindow := getMaintenanceWindow pg.spec.maintenanceWindowDow pg.spec.maintenanceWindowTime
    plan := pg.spec.plan
    projectVPCID := if pg.spec.projectVPCID != "" then some pg.spec.projectVPCID else none
    serviceName := pg.name
    serviceType := "pg"
    userConfig := UserConfigurationToAPI pg.spec.pgUserConfig }

/-- The `aiven.UpdateServiceRequest` literal built inside `PGHandler.update`. -/
def PGHandler.updateRequestOf (pg : PG) : UpdateServiceRequest :=
  { cloud := pg.spec.cloudName
    maintenanceWindow := getMaintenanceWindow pg.spec.maintenanceWindowDow pg.spec.maintenanceWindowTime
    plan := pg.spec.plan
    projectVPCID := if pg.spec.projectVPCID != "" then some pg.spec.projectVPCID else none
    userConfig := UserConfigurationToAPI pg.spec.pgUserConfig
    powered := true }

/-- Method `PGHandler.setStatus`: copies the remote service's fields into the
descriptor's Status; a nil remote VPC reference becomes the empty string. -/
def PGHandler.setStatus (pg : PG) (s : Service) : PG :=
  let prVPCID := match s.projectVPCID with
    | some v => v
    | none => ""
  { pg with status :=
    { state := s.state
      projectVPCID := prVPCID
      plan := s.plan
      maintenanceWindowTime := s.maintenanceWindow.timeOfDay
      maintenanceWindowDow := s.maintenanceWindow.dayOfWeek
      cloudName := s.cloudName } }

/-- Method `PGHandler.exists`: the existence check. Faithful to the source: the
error of `Services.Get` is inspected only through `aiven.IsNotFound`, and
the returned error is nil on every path past `convert`. -/
def PGHandler.exists' (c : Client) (_log : Logger) (i : KObject) :
    (Bool × Option GoErr) × List RemoteCall :=
  match PGHandler.convert i with
  | .error e => ((false, some e), [])
  | .ok pg =>
    let r := c.servicesGet pg.spec.project pg.name
    let calls := [RemoteCall.getService pg.spec.project pg.name]
    if isNotFound r.2 then ((false, none), calls)
    else ((r.1.isSome, none), calls)

/-- Method `PGHandler.create`: creates the service and sets the descriptor status
from the returned service. The `(none, none)` client response cannot occur
under the Go client's contract (a nil error implies a non-nil service). -/
def PGHandler.create (c : Client) (_log : Logger) (i : KObject) :
    (Option PG × Option GoErr) × List RemoteCall :=
  match PGHandler.convert i with
  | .error e => ((none, some e), [])
  | .ok pg =>
    let req := PGHandler.createRequestOf pg
    let calls := [RemoteCall.createService pg.spec.project req]
    match c.servicesCreate pg.spec.project req with
    | (_, some e) => ((none, some e), calls)
    | (some s, none) => ((some (PGHandler.setStatus pg s), none), calls)
    | (none, none) => ((none, none), calls)

/-- Method `PGHandler.update`: updates the service and sets the descriptor status
from the returned service. -/
def PGHandler.update (c : Client) (_log : Logger) (i : KObject) :
    (Option PG × Option GoErr) × List RemoteCall :=
  match PGHandler.convert i with
  | .error e => ((none, some e), [])
  | .ok pg =>
    let req := PGHandler.updateRequestOf pg
    let calls := [RemoteCall.updateService pg.spec.project pg.name req]
    match c.servicesUpdate pg.spec.project pg.name req with
    | (_, some e) => ((none, some e), calls)
    | (some s, none) => ((some (PGHandler.setStatus pg s), none), calls)
    | (none, none) => ((none, none), calls)

/-- Method `PGHandler.delete`: deletes the remote service; a non-NotFound error is
wrapped and returned with `false`, otherwise the result is `true`. -/
def PGHandler.delete (c : Client) (_log : Logger) (i : KObject) :
    (Bool × Option GoErr) × List RemoteCall :=
  match PGHandler.convert i with
  | .error e => ((false, some e), [])
  | .ok pg =>
    let calls := [RemoteCall.deleteService pg.spec.project pg.name]
    match c.servicesDelete pg.spec.project pg.name with
    | some e =>
      if !e.notFound then
        ((false, some { notFound := e.notFound, msg := "aiven client delete pg error: " ++ e.msg }), calls)
      else ((true, none), calls)
    | none => ((true, none), calls)

/-- Method `PGHandler.getSecretName`: the target-secret-name override if present,
else the descriptor's name. -/
def PGHandler.getSecretName (pg : PG) : String :=
  if pg.spec.connInfoSecretTargetName != "" then pg.spec.connInfoSecretTargetName
  else pg.name

/-- Method `PGHandler.getSecret`: fetches the service and builds the secret from
its URI parameters. Faithful to the source: no empty-value stripping. -/
def PGHandler.getSecret (c : Client) (_log : Logger) (i : KObject) :
    (Option Secret × Option GoErr) × List RemoteCall :=
  match PGHandler.convert i with
  | .error e => ((none, some e), [])
  | .ok pg =>
    let calls := [RemoteCall.getService pg.spec.project pg.name]
    match c.servicesGet pg.spec.project pg.name with
    | (_, some e) =>
      ((none, some { notFound := e.notFound, msg := "cannot get pg: " ++ e.msg }), calls)
    | (some s, none) =>
      let params := s.uriParams
      ((some
        { name := PGHandler.getSecretName pg
          ns := pg.ns
          labels := [("app", pg.name)]
          stringData :=
            [("PGHOST", mapGet params "host"),
             ("PGPORT", mapGet params "port"),
             ("PGDATABASE", mapGet params "dbname"),
             ("PGUSER", mapGet params "user"),
             ("PGPASSWORD", mapGet params "password"),
             ("PGSSLMODE", mapGet params "sslmode"),
             ("DATABASE_URI", s.uri)] }, none), calls)
    | (none, none) => ((none, none), calls)

/-- Modelled from the spec: the helper `checkServiceIsRunning` is defined in
the generic controller file, which is not among the provided sources. Per
the spec, readiness polling fetches the remote resource and inspects its
lifecycle state; any failure counts as not running. -/
def checkServiceIsRunning (c : Client) (project serviceName : String) :
    Bool × List RemoteCall :=
  let r := c.servicesGet project serviceName
  let calls := [RemoteCall.getService project serviceName]
  match r with
  | (some s, none) => (s.state == "RUNNING", calls)
  | _ => (false, calls)

/-- Method `PGHandler.isActive`: delegates to `checkServiceIsRunning`. -/
def PGHandler.isActive (c : Client) (_log : Logger) (i : KObject) :
    (Bool × Option GoErr) × List RemoteCall :=
  match PGHandler.convert i with
  | .error e => ((false, some e), [])
  | .ok pg =>
    let r := checkServiceIsRunning c pg.spec.project pg.name
    ((r.1, none), r.2)

/-- Method `PGHandler.checkPreconditions`: unconditionally true. -/
def PGHandler.checkPreconditions (_c : Client) (_log : Logger) (_i : KObject) : Bool :=
  true

/-- The Kafka service adapter: the injected client plus the descriptor. -/
structure KafkaAdapter where
  avn : Client
  kafka : Kafka

/-- The error value `newKafkaAdapter` produces for a non-Kafka object. -/
def kafkaConvErr : GoErr := { notFound := false, msg := "object is not of type v1alpha1.Kafka" }

/-- Constructor `newKafkaAdapter`: the adapter constructor; fails when the object is
not concretely a Kafka descriptor, and issues no remote call. -/
def newKafkaAdapter (avn : Client) (i : KObject) :
    (Option KafkaAdapter × Option GoErr) × List RemoteCall :=
  match i with
  | .kafka k => ((some { avn := avn, kafka := k }, none), [])
  | _ => ((none, some kafkaConvErr), [])

/-- Method `kafkaAdapter.getServiceType`. -/
def KafkaAdapter.getServiceType (_a : KafkaAdapter) : String := "kafka"

/-- Method `kafkaAdapter.getDiskSpace`. -/
def KafkaAdapter.getDiskSpace (a : KafkaAdapter) : String := a.kafka.spec.diskSpace

/-- Method `kafkaAdapter.newSecret`: builds the Kafka secret from the service
snapshot plus the side-channel `CA.Get` call; the guarded access to
`s.Users[0]` becomes a match on the user list, and the empties-removing
loop over the string-data map becomes a filter keeping non-empty values. -/
def KafkaAdapter.newSecret (a : KafkaAdapter) (s : Service) :
    (Option Secret × Option GoErr) × List RemoteCall :=
  let name0 := a.kafka.spec.connInfoSecretTargetName
  let name := if name0 == "" then a.kafka.name else name0
  let userName := match s.users with
    | u :: _ => u.username
    | [] => ""
  let password := match s.users with
    | u :: _ => u.password
    | [] => ""
  let calls := [RemoteCall.getCA a.kafka.spec.serviceCommonSpec.project]
  match a.avn.caGet a.kafka.spec.serviceCommonSpec.project with
  | (_, some e) =>
    ((none, some { notFound := e.notFound, msg := "aiven client error " ++ e.msg }), calls)
  | (caCert, none) =>
    let stringData :=
      [("HOST", mapGet s.uriParams "host"),
       ("PORT", mapGet s.uriParams "port"),
       ("PASSWORD", password),
       ("USERNAME", userName),
       ("ACCESS_CERT", s.connectionInfo.kafkaAccessCert),
       ("ACCESS_KEY", s.connectionInfo.kafkaAccessKey),
       ("CA_CERT", caCert)]
    let stringData := stringData.filter (fun kv => kv.2 != "")
    ((some { name := name, ns := a.kafka.ns, labels := [], stringData := stringData }, none), calls)

/-- The property the spec states of a descriptor status against a remote
service: every Status field equals the service's corresponding field, with
the VPC reference defaulting to the empty string when the service has none. -/
def statusReflects (pg : PG) (s : Service) : Prop :=
  pg.status.state = s.state ∧
  pg.status.cloudName = s.cloudName ∧
  pg.status.plan = s.plan ∧
  pg.status.maintenanceWindowDow = s.maintenanceWindow.dayOfWeek ∧
  pg.status.maintenanceWindowTime = s.maintenanceWindow.timeOfDay ∧
  pg.status.projectVPCID = (match s.projectVPCID with | some v => v | none => "")

/-! Concrete sample inputs used by the witness and counterexample theorems. -/

/-- A transient (non-NotFound) remote error. -/
def errTransient : GoErr := { notFound := false, msg := "500 internal server error" }

/-- A NotFound remote error. -/
def errNotFound : GoErr := { notFound := true, msg := "404 service not found" }

/-- A sample PG descriptor, with neither a VPC nor a secret-name override. -/
def samplePG : PG :=
  { name := "db1"
    ns := "default"
    spec :=
      { project := "p1"
        cloudName := "google-europe-west1"
        plan := "startup-4"
        maintenanceWindowDow := "monday"
        maintenanceWindowTime := "10:00:00"
        projectVPCID := ""
        pgUserConfig := "cfg"
        connInfoSecretTargetName := "" }
    status :=
      { state := ""
        projectVPCID := ""
        plan := ""
        maintenanceWindowTime := ""
        maintenanceWindowDow := ""
        cloudName := "" } }

/-- A sample remote service snapshot; its URI parameters carry no password
entry, so Go map indexing yields the empty string for it. -/
def sampleService : Service :=
  { state := "RUNNING"
    plan := "startup-4"
    cloudName := "google-europe-west1"
    projectVPCID := none
    maintenanceWindow := { dayOfWeek := "monday", timeOfDay := "10:00:00" }
    uri := "postgres://u:pw@h:5432/db"
    uriParams := [("host", "h"), ("port", "5432"), ("dbname", "db"), ("user", "u"), ("sslmode", "require")]
    users := []
    connectionInfo := { kafkaAccessCert := "", kafkaAccessKey := "" } }

/-- A sample Kafka descriptor. -/
def sampleKafka : Kafka :=
  { name := "kf1"
    ns := "default"
    spec :=
      { serviceCommonSpec := { project := "p1" }
        connInfoSecretTargetName := ""
        diskSpace := ""
        userConfig := "cfg" } }

/-- A sample Kafka remote service snapshot with one user and TLS material. -/
def kafkaService : Service :=
  { state := "RUNNING"
    plan := "business-4"
    cloudName := "google-europe-west1"
    projectVPCID := none
    maintenanceWindow := { dayOfWeek := "monday", timeOfDay := "10:00:00" }
    uri := "kf1-p1.aivencloud.com:9092"
    uriParams := [("host", "kh"), ("port", "9092")]
    users := [{ username := "avnadmin", password := "secretpw" }]
    connectionInfo := { kafkaAccessCert := "CERT", kafkaAccessKey := "KEY" } }

/-- The Kafka sample snapshot with an empty user list. -/
def kafkaServiceNoUsers : Service :=
  { kafkaService with users := [] }

/-- A client on which every remote call succeeds. -/
def clientOk : Client :=
  { servicesGet := fun _ _ => (some sampleService, none)
    servicesCreate := fun _ _ => (some sampleService, none)
    servicesUpdate := fun _ _ _ => (some sampleService, none)
    servicesDelete := fun _ _ => none
    caGet := fun _ => ("ca-pem", none) }

/-- A client on which every remote call fails with a transient error. -/
def clientTransient : Client :=
  { servicesGet := fun _ _ => (none, some errTransient)
    servicesCreate := fun _ _ => (none, some errTransient)
    servicesUpdate := fun _ _ _ => (none, some errTransient)
    servicesDelete := fun _ _ => some errTransient
    caGet := fun _ => ("", some errTransient) }

/-- A client on which every remote call reports NotFound. -/
def clientNotFound : Client :=
  { servicesGet := fun _ _ => (none, some errNotFound)
    servicesCreate := fun _ _ => (none, some errNotFound)
    servicesUpdate := fun _ _ _ => (none, some errNotFound)
    servicesDelete := fun _ _ => some errNotFound
    caGet := fun _ => ("", some errNotFound) }

/-- The Kafka adapter over the all-succeeding client and the sample Kafka. -/
def sampleAdapter : KafkaAdapter := { avn := clientOk, kafka := sampleKafka }

/-- The secret `kafkaAdapter.newSecret` builds from `kafkaService` through
`sampleAdapter` (all seven fields non-empty, so none is stripped). -/
def kafkaSecretW : Secret :=
  { name := "kf1"
    ns := "default"
    labels := []
    stringData :=
      [("HOST", "kh"), ("PORT", "9092"), ("PASSWORD", "secretpw"), ("USERNAME", "avnadmin"),
       ("ACCESS_CERT", "CERT"), ("ACCESS_KEY", "KEY"), ("CA_CERT", "ca-pem")] }

/-- The secret `kafkaAdapter.newSecret` builds from `kafkaServiceNoUsers`:
the empty USERNAME and PASSWORD entries are stripped. -/
def kafkaSecretNoUserW : Secret :=
  { name := "kf1"
    ns := "default"
    labels := []
    stringData :=
      [("HOST", "kh"), ("PORT", "9092"),
       ("ACCESS_CERT", "CERT"), ("ACCESS_KEY", "KEY"), ("CA_CERT", "ca-pem")] }

/-- The secret `PGHandler.getSecret` builds from `sampleService` for
`samplePG`; note the empty PGPASSWORD entry is kept. -/
def pgSecretW : Secret :=
  { name := "db1"
    ns := "default"
    labels := [("app", "db1")]
    stringData :=
      [("PGHOST", "h"), ("PGPORT", "5432"), ("PGDATABASE", "db"), ("PGUSER", "u"),
       ("PGPASSWORD", ""), ("PGSSLMODE", "require"), ("DATABASE_URI", "postgres://u:pw@h:5432/db")] }

/-! Theorems settling the claims. -/

/-- Claim C10: the PG adapter's checkPreconditions returns true for every
client, logger and object, so a PG reconcile never records a waiting status
and never defers its remote calls on an unready referenced dependency. -/
theorem c10_checkPreconditions_always_true (c : Client) (log : Logger) (i : KObject) :
    PGHandler.checkPreconditions c log i = true := rfl

/-- Claim C4: when the remote get during the existence check reports
NotFound, exists returns false with a nil error — NotFound is converted to
the boolean "does not exist", never surfaced as a failure. -/
theorem c4_exists_notFound_false_no_error (c : Client) (log : Logger) (p : PG)
    (h : isNotFound (c.servicesGet p.spec.project p.name).2 = true) :
    (PGHandler.exists' c log (KObject.pg p)).1 = (false, none) := by
  unfold PGHandler.exists' PGHandler.convert
  simp [h]

/-- Witness for C4 at a concrete NotFound-reporting client. -/
theorem c4_witness :
    (PGHandler.exists' clientNotFound () (KObject.pg samplePG)).1 = (false, none) :=
  c4_exists_notFound_false_no_error clientNotFound () samplePG rfl

/-- Claim C1 at its failing input: on a non-NotFound get failure the
existence check returns (false, nil) — the error is swallowed instead of
propagated, so the engine would go on to attempt create on an undetermined
existence check. -/
theorem c1_exists_swallows_transient_error :
    (PGHandler.exists' clientTransient () (KObject.pg samplePG)).1 = (false, none) ∧
    clientTransient.servicesGet samplePG.spec.project samplePG.name = (none, some errTransient) ∧
    errTransient.notFound = false :=
  ⟨rfl, rfl, rfl⟩

/-- Counterexample to claim C2 as stated: a successful remote delete (nil
error, hence not NotFound) still makes delete return true, so true is not
returned only when NotFound was observed. -/
theorem c2_counterexample_success_returns_true :
    (PGHandler.delete clientOk () (KObject.pg samplePG)).1 = (true, none) ∧
    clientOk.servicesDelete samplePG.spec.project samplePG.name = none ∧
    isNotFound (clientOk.servicesDelete samplePG.spec.project samplePG.name) = false :=
  ⟨rfl, rfl, rfl⟩

/-- Claim C2 as amended: delete reports that the finalizer may be removed
(returns true) exactly when the remote delete call succeeded or observed
NotFound; on any non-NotFound delete error it returns false together with
the wrapped error, keeping the finalizer. -/
theorem c2_delete_true_iff_success_or_notFound (c : Client) (log : Logger) (p : PG) :
    ((PGHandler.delete c log (KObject.pg p)).1.1 = true ↔
      c.servicesDelete p.spec.project p.name = none ∨
      isNotFound (c.servicesDelete p.spec.project p.name) = true) ∧
    (∀ e, c.servicesDelete p.spec.project p.name = some e → e.notFound = false →
      (PGHandler.delete c log (KObject.pg p)).1 =
        (false, some { notFound := false, msg := "aiven client delete pg error: " ++ e.msg })) := by
  unfold PGHandler.delete PGHandler.convert
  constructor
  · cases hd : c.servicesDelete p.spec.project p.name with
    | none => simp [hd, isNotFound]
    | some e =>
      by_cases hnf : e.notFound
      · simp [hd, isNotFound, hnf]
      · simp [hd, isNotFound, hnf]
  · intro e he hnf
    simp [he, hnf]

/-- Witness for the amended C2 at a concrete NotFound-reporting client. -/
theorem c2_amended_witness :
    (PGHandler.delete clientNotFound () (KObject.pg samplePG)).1.1 = true :=
  ((c2_delete_true_iff_success_or_notFound clientNotFound () samplePG).1).2 (Or.inr rfl)

/-- Counterexample to claim C3 as stated: the PG secret builder does not
strip empty values — with a snapshot whose URI parameters lack a password
entry, the produced secret maps PGPASSWORD to the empty string. -/
theorem c3_counterexample_pg_empty_field :
    ((PGHandler.getSecret clientOk () (KObject.pg samplePG)).1.1.map
      (fun sec => sec.stringData.find? (fun kv => kv.1 == "PGPASSWORD"))) =
    some (some ("PGPASSWORD", "")) := rfl

/-- Claim C3 as amended: the Kafka secret builder strips every empty-valued
entry before returning, so no field of its produced secret maps to the
empty string; the PG secret builder performs no stripping and returns the
seven credential fields verbatim from the snapshot, empty values included. -/
theorem c3_kafka_strips_pg_does_not :
    (∀ (a : KafkaAdapter) (s : Service) (sec : Secret),
      (KafkaAdapter.newSecret a s).1.1 = some sec →
      ∀ kv ∈ sec.stringData, kv.2 ≠ "") ∧
    (∀ (c : Client) (log : Logger) (p : PG) (s : Service),
      c.servicesGet p.spec.project p.name = (some s, none) →
      (PGHandler.getSecret c log (KObject.pg p)).1.1 = some
        { name := PGHandler.getSecretName p
          ns := p.ns
          labels := [("app", p.name)]
          stringData :=
            [("PGHOST", mapGet s.uriParams "host"),
             ("PGPORT", mapGet s.uriParams "port"),
             ("PGDATABASE", mapGet s.uriParams "dbname"),
             ("PGUSER", mapGet s.uriParams "user"),
             ("PGPASSWORD", mapGet s.uriParams "password"),
             ("PGSSLMODE", mapGet s.uriParams "sslmode"),
             ("DATABASE_URI", s.uri)] }) := by
  constructor
  · intro a s sec h kv hmem
    unfold KafkaAdapter.newSecret at h
    rcases hca : a.avn.caGet a.kafka.spec.serviceCommonSpec.project with ⟨caCert, caErr⟩
    rw [hca] at h
    cases caErr with
    | some e => simp at h
    | none =>
      simp only [Option.some.injEq] at h
      subst h
      simp only [List.mem_filter] at hmem
      simpa using hmem.2
  · intro c log p s h
    unfold PGHandler.getSecret PGHandler.convert
    simp [h]

/-- Witness for the amended C3: the PG half evaluated at the sample client
and descriptor. -/
theorem c3_amended_witness :
    (PGHandler.getSecret clientOk () (KObject.pg samplePG)).1.1 = some
      { name := PGHandler.getSecretName samplePG
        ns := samplePG.ns
        labels := [("app", samplePG.name)]
        stringData :=
          [("PGHOST", mapGet sampleService.uriParams "host"),
           ("PGPORT", mapGet sampleService.uriParams "port"),
           ("PGDATABASE", mapGet sampleService.uriParams "dbname"),
           ("PGUSER", mapGet sampleService.uriParams "user"),
           ("PGPASSWORD", mapGet sampleService.uriParams "password"),
           ("PGSSLMODE", mapGet sampleService.uriParams "sslmode"),
           ("DATABASE_URI", sampleService.uri)] } :=
  c3_kafka_strips_pg_does_not.2 clientOk () samplePG sampleService rfl

/-- Claim C5: every secret the adapters build is named by the descriptor's
target-secret-name override when that override is non-empty and by the
descriptor's own name otherwise, and lives in the descriptor's namespace. -/
theorem c5_secret_name_and_namespace :
    (∀ (c : Client) (log : Logger) (p : PG) (sec : Secret),
      (PGHandler.getSecret c log (KObject.pg p)).1.1 = some sec →
      sec.name =
        (if p.spec.connInfoSecretTargetName ≠ "" then p.spec.connInfoSecretTargetName else p.name) ∧
      sec.ns = p.ns) ∧
    (∀ (a : KafkaAdapter) (s : Service) (sec : Secret),
      (KafkaAdapter.newSecret a s).1.1 = some sec →
      sec.name =
        (if a.kafka.spec.connInfoSecretTargetName ≠ "" then a.kafka.spec.connInfoSecretTargetName
         else a.kafka.name) ∧
      sec.ns = a.kafka.ns) := by
  constructor
  · intro c log p sec h
    unfold PGHandler.getSecret PGHandler.convert at h
    rcases hg : c.servicesGet p.spec.project p.name with ⟨s?, e?⟩
    simp only [hg] at h
    cases e? with
    | some e => simp at h
    | none =>
      cases s? with
      | none => simp at h
      | some s =>
        simp only [Option.some.injEq] at h
        subst h
        unfold PGHandler.getSecretName
        by_cases hn : p.spec.connInfoSecretTargetName = ""
        · simp [hn]
        · simp [hn]
  · intro a s sec h
    unfold KafkaAdapter.newSecret at h
    rcases hca : a.avn.caGet a.kafka.spec.serviceCommonSpec.project with ⟨caCert, caErr⟩
    rw [hca] at h
    cases caErr with
    | some e => simp at h
    | none =>
      simp only [Option.some.injEq] at h
      subst h
      by_cases hn : a.kafka.spec.connInfoSecretTargetName = ""
      · simp [hn]
      · simp [hn]

/-- Witness for C5: the PG half evaluated at the sample client and
descriptor, whose produced secret is pgSecretW. -/
theorem c5_witness :
    pgSecretW.name =
      (if samplePG.spec.connInfoSecretTargetName ≠ "" then samplePG.spec.connInfoSecretTargetName
       else samplePG.name) ∧
    pgSecretW.ns = samplePG.ns :=
  c5_secret_name_and_namespace.1 clientOk () samplePG pgSecretW rfl

/-- Claim C6: after a successful create or update the returned descriptor's
Status fields equal the corresponding fields of the remote service returned
by the call, with the VPC reference set to the empty string when the remote
service carries none. -/
theorem c6_status_reflects_remote (c : Client) (log : Logger) (p : PG) (s t : Service)
    (hc : c.servicesCreate p.spec.project (PGHandler.createRequestOf p) = (some s, none))
    (hu : c.servicesUpdate p.spec.project p.name (PGHandler.updateRequestOf p) = (some t, none)) :
    (PGHandler.create c log (KObject.pg p)).1 = (some (PGHandler.setStatus p s), none) ∧
    statusReflects (PGHandler.setStatus p s) s ∧
    (PGHandler.update c log (KObject.pg p)).1 = (some (PGHandler.setStatus p t), none) ∧
    statusReflects (PGHandler.setStatus p t) t := by
  refine ⟨?_, ?_, ?_, ?_⟩
  · unfold PGHandler.create PGHandler.convert
    simp [hc]
  · unfold statusReflects
    exact ⟨rfl, rfl, rfl, rfl, rfl, rfl⟩
  · unfold PGHandler.update PGHandler.convert
    simp [hu]
  · unfold statusReflects
    exact ⟨rfl, rfl, rfl, rfl, rfl, rfl⟩

/-- Witness for C6 at the all-succeeding client and the sample descriptor. -/
theorem c6_witness :
    (PGHandler.create clientOk () (KObject.pg samplePG)).1 =
      (some (PGHandler.setStatus samplePG sampleService), none) ∧
    statusReflects (PGHandler.setStatus samplePG sampleService) sampleService ∧
    (PGHandler.update clientOk () (KObject.pg samplePG)).1 =
      (some (PGHandler.setStatus samplePG sampleService), none) ∧
    statusReflects (PGHandler.setStatus samplePG sampleService) sampleService :=
  c6_status_reflects_remote clientOk () samplePG sampleService sampleService rfl rfl

/-- Claim C7: the Kafka secret carries the access certificate, the access
key and the CA certificate obtained through the side-channel CA call (the
only remote call the builder issues); when that call fails, secret building
fails with an error and no secret is produced. -/
theorem c7_kafka_secret_certs (a : KafkaAdapter) (s : Service) :
    (∀ cert e, a.avn.caGet a.kafka.spec.serviceCommonSpec.project = (cert, some e) →
      (KafkaAdapter.newSecret a s).1 =
        (none, some { notFound := e.notFound, msg := "aiven client error " ++ e.msg })) ∧
    (∀ cert, a.avn.caGet a.kafka.spec.serviceCommonSpec.project = (cert, none) →
      (KafkaAdapter.newSecret a s).2 = [RemoteCall.getCA a.kafka.spec.serviceCommonSpec.project] ∧
      (KafkaAdapter.newSecret a s).1.2 = none ∧
      (KafkaAdapter.newSecret a s).1.1.isSome = true ∧
      ∀ sec, (KafkaAdapter.newSecret a s).1.1 = some sec →
        (cert ≠ "" → ("CA_CERT", cert) ∈ sec.stringData) ∧
        (s.connectionInfo.kafkaAccessCert ≠ "" →
          ("ACCESS_CERT", s.connectionInfo.kafkaAccessCert) ∈ sec.stringData) ∧
        (s.connectionInfo.kafkaAccessKey ≠ "" →
          ("ACCESS_KEY", s.connectionInfo.kafkaAccessKey) ∈ sec.stringData)) := by
  constructor
  · intro cert e hca
    unfold KafkaAdapter.newSecret
    simp [hca]
  · intro cert hca
    refine ⟨?_, ?_, ?_, ?_⟩
    · unfold KafkaAdapter.newSecret
      simp [hca]
    · unfold KafkaAdapter.newSecret
      simp [hca]
    · unfold KafkaAdapter.newSecret
      simp [hca]
    · intro sec hsec
      unfold KafkaAdapter.newSecret at hsec
      simp only [hca, Option.some.injEq] at hsec
      subst hsec
      refine ⟨?_, ?_, ?_⟩
      · intro hne
        simp [List.mem_filter, hne]
      · intro hne
        simp [List.mem_filter, hne]
      · intro hne
        simp [List.mem_filter, hne]

/-- Witness for C7: the produced sample Kafka secret contains the CA
certificate returned by the side-channel call. -/
theorem c7_witness :
    ("CA_CERT", "ca-pem") ∈ kafkaSecretW.stringData :=
  (((c7_kafka_secret_certs sampleAdapter kafkaService).2 "ca-pem" rfl).2.2.2
      kafkaSecretW rfl).1 (by decide)

/-- Claim C8: every capability operation handed an object that is not of
the adapter's concrete kind fails with the conversion error and issues no
remote call. -/
theorem c8_wrong_kind_errors_no_calls (c : Client) (log : Logger) (i : KObject) :
    (i.isPGKind = false →
      PGHandler.exists' c log i = ((false, some pgConvErr), []) ∧
      PGHandler.create c log i = ((none, some pgConvErr), []) ∧
      PGHandler.update c log i = ((none, some pgConvErr), []) ∧
      PGHandler.delete c log i = ((false, some pgConvErr), []) ∧
      PGHandler.isActive c log i = ((false, some pgConvErr), []) ∧
      PGHandler.getSecret c log i = ((none, some pgConvErr), [])) ∧
    (i.isKafkaKind = false →
      newKafkaAdapter c i = ((none, some kafkaConvErr), [])) := by
  cases i with
  | pg p =>
    exact ⟨fun h => by simp [KObject.isPGKind] at h, fun _ => rfl⟩
  | kafka k =>
    exact ⟨fun _ => ⟨rfl, rfl, rfl, rfl, rfl, rfl⟩, fun h => by simp [KObject.isKafkaKind] at h⟩
  | other n =>
    exact ⟨fun _ => ⟨rfl, rfl, rfl, rfl, rfl, rfl⟩, fun _ => rfl⟩

/-- Witness for C8 at a concrete object of neither kind. -/
theorem c8_witness :
    PGHandler.exists' clientOk () (KObject.other "configmap") = ((false, some pgConvErr), []) ∧
    newKafkaAdapter clientOk (KObject.other "configmap") = ((none, some kafkaConvErr), []) :=
  ⟨((c8_wrong_kind_errors_no_calls clientOk () (KObject.other "configmap")).1 rfl).1,
   (c8_wrong_kind_errors_no_calls clientOk () (KObject.other "configmap")).2 rfl⟩

/-- Claim C9: with an empty remote user list the Kafka secret builder never
accesses a user entry (the translation of the guarded index), does not fail
on that account, and the produced secret omits USERNAME and PASSWORD. -/
theorem c9_empty_users_guarded (a : KafkaAdapter) (s : Service) (cert : String)
    (hu : s.users = [])
    (hca : a.avn.caGet a.kafka.spec.serviceCommonSpec.project = (cert, none)) :
    (KafkaAdapter.newSecret a s).1.2 = none ∧
    (KafkaAdapter.newSecret a s).1.1.isSome = true ∧
    ∀ sec, (KafkaAdapter.newSecret a s).1.1 = some sec →
      (∀ v, ("USERNAME", v) ∉ sec.stringData) ∧
      (∀ v, ("PASSWORD", v) ∉ sec.stringData) := by
  refine ⟨?_, ?_, ?_⟩
  · unfold KafkaAdapter.newSecret
    simp [hca]
  · unfold KafkaAdapter.newSecret
    simp [hca]
  · intro sec hsec
    unfold KafkaAdapter.newSecret at hsec
    simp only [hca, hu, Option.some.injEq] at hsec
    subst hsec
    constructor
    · intro v hv
      simp [List.mem_filter] at hv
    · intro v hv
      simp [List.mem_filter] at hv

/-- Witness for C9 at the sample Kafka snapshot with no users. -/
theorem c9_witness :
    ("USERNAME", "avnadmin") ∉ kafkaSecretNoUserW.stringData :=
  ((c9_empty_users_guarded sampleAdapter kafkaServiceNoUsers "ca-pem" rfl rfl).2.2
      kafkaSecretNoUserW rfl).1 "avnadmin"
